import Mathlib

/-!
Shallow embedding of the asvmq messaging library (topic_communications.py,
work_queue_communications.py, broadcaster.py).

Python exceptions are modelled by an explicit error type; broker interactions
(basic_publish, basic_ack, user-callback invocation) are modelled as events
appended to a trace, and the boolean outcome the broker reports for a
basic_publish call is an input to the model.  Python floats that carry message
timestamps and frequencies are modelled as rationals: every arithmetic step the
code performs on them (add, subtract, divide, compare with 0) is exact here.
-/

namespace AsvMq

/-- Python exception classes raised by the modelled code paths. -/
inductive PyError
  | attributeError
  | valueError
  | runtimeWarning
  | channelError
  | nameError
  | channelWrongStateError
  | typeError
  deriving DecidableEq, Repr

/-- Model of asvprotobuf.std_pb2.Header as read and written by the library:
a sender string and a stamp with integer seconds and nanos fields. -/
structure Header where
  sender : String
  stampSeconds : Int
  stampNanos : Int
  deriving DecidableEq, Repr

/-- Model of a Python value handed to Publisher.publish / Broadcaster.publish.
A value is either a str, or an object carrying a runtime type name, an
optional header attribute (none models an object without a header field), a
flag saying whether MessageToJson / SerializeToString succeed on it, the JSON
rendering MessageToJson would produce (newlines already stripped), and the
bytes SerializeToString would produce. -/
inductive PMsg
  | pyStr (s : String)
  | pyObj (typeName : String) (header : Option Header) (encodable : Bool)
      (json : String) (wire : String)
  deriving DecidableEq, Repr

/-- Runtime type name of a value, as isinstance and type comparisons see it. -/
def PMsg.typeName : PMsg → String
  | .pyStr _ => "str"
  | .pyObj t _ _ _ _ => t

/-- Effect of the statement message.header.sender = node_name: a str or an
object with no header attribute raises AttributeError (none); otherwise the
sender field of the header is overwritten in place. -/
def PMsg.stampSender (m : PMsg) (n : String) : Option PMsg :=
  match m with
  | .pyStr _ => none
  | .pyObj _ none _ _ _ => none
  | .pyObj t (some h) e j w => some (.pyObj t (some { h with sender := n }) e j w)

/-- Model of the asvprotobuf Log record the Publisher builds: level, name and
message fields (the remaining proto fields keep their defaults). -/
structure LogRecord where
  level : Nat
  name : String
  message : String
  deriving DecidableEq, Repr

/-- Body handed to basic_publish for the primary topic publish: either the raw
string (str branch) or the SerializeToString bytes (protobuf branch). -/
inductive PubBody
  | ofStr (s : String)
  | ofBytes (w : String)
  deriving DecidableEq, Repr

/-- Broker-visible action performed by Publisher.publish: a basic_publish to
the logs fan-out exchange carrying the JSON of a LogRecord, or a
basic_publish to the asvmq topic exchange with the given routing key and
body. -/
inductive PubEvent
  | toLogs (rec : LogRecord)
  | toTopic (routingKey : String) (body : PubBody)
  deriving DecidableEq, Repr

/-- State of a Publisher: node name, topic, the name of the declared object
type (the string "str" models payload type str), and the outcomes the broker
reports for the logging publish and the primary publish. -/
structure PubState where
  nodeName : String
  topic : String
  declType : String
  logOk : Bool
  primaryOk : Bool
  deriving DecidableEq, Repr

/-- Lines 166-176 of topic_communications.py: build the log record fields and
serialize the payload.  In the str branch log_message.message is never
assigned, so it keeps the proto default "".  In the protobuf branch name,
message and SerializeToString all sit in one try block whose except clause
raises ValueError, modelled by the encodable flag. -/
def buildRecord : PMsg → Option (LogRecord × PubBody)
  | .pyStr s => some ({ level := 0, name := "str", message := "" }, .ofStr s)
  | .pyObj t _ true j w => some ({ level := 0, name := t, message := j }, .ofBytes w)
  | .pyObj _ _ false _ _ => none

namespace Publisher

/-- Publisher.publish (topic_communications.py lines 156-186).  Statement
order follows the source: build the Log record shell, stamp
message.header.sender, isinstance check, build record fields and serialize,
publish to the logs exchange (raise RuntimeWarning when the broker reports
failure), publish to the topic exchange (raise ChannelError on failure).
Returns the call outcome, the trace of basic_publish calls made, and the
final state of the message object owned by the caller. -/
def publish (p : PubState) (message : PMsg) :
    Except PyError Unit × List PubEvent × PMsg :=
  match message.stampSender p.nodeName with
  | none => (.error .attributeError, [], message)
  | some m1 =>
    if m1.typeName ≠ p.declType then
      (.error .valueError, [], m1)
    else
      match buildRecord m1 with
      | none => (.error .valueError, [], m1)
      | some (rec, body) =>
        let ev1 := PubEvent.toLogs rec
        if p.logOk then
          let ev2 := PubEvent.toTopic p.topic body
          if p.primaryOk then (.ok (), [ev1, ev2], m1)
          else (.error .channelError, [ev1, ev2], m1)
        else
          (.error .runtimeWarning, [ev1], m1)

end Publisher

/-- Decoded protobuf message as produced by object_type.FromString: the
fields the Subscriber reads from it (header.sender and header.stamp). -/
structure DecMsg where
  sender : String
  stampSeconds : Int
  stampNanos : Int
  deriving DecidableEq, Repr

/-- Raw delivery body handed to Subscriber.callback: pika may hand a str or a
bytes payload. -/
inductive SBody
  | ofStr (s : String)
  | ofBytes (b : String)
  deriving DecidableEq, Repr

/-- Lines 279-281 of topic_communications.py: a str body is re-encoded to
bytes before decoding; a bytes body is used as is.  Byte sequences are
modelled as strings, so the utf-8 round trip is the identity. -/
def SBody.coerce : SBody → String
  | .ofStr s => s
  | .ofBytes b => b

/-- Graph telemetry record the Subscriber publishes to the graph exchange:
sender, receiver, message type name, and the computed frequency. -/
structure GraphRecord where
  sender : String
  receiver : String
  msgType : String
  freq : ℚ
  deriving DecidableEq, Repr

/-- Action performed by Subscriber.callback: basic_ack of the delivery tag,
basic_publish of a GraphRecord to the graph exchange, invocation of the user
callback with the raw body (str-typed subscription), or invocation of the
user callback with the decoded message and the configured callback args. -/
inductive SEvent
  | ack (tag : Nat)
  | graph (rec : GraphRecord)
  | cbRaw (body : SBody)
  | cbMsg (msg : DecMsg) (args : List String)
  deriving DecidableEq, Repr

/-- State of a Subscriber: node name, name of the declared object type (none
models object_type None, the string "str" models object_type str),
last-seen timestamp, configured callback args, and the outcome the broker
reports for the graph publish. -/
structure SubState where
  nodeName : String
  declType : Option String
  lastTimestamp : ℚ
  cbArgs : List String
  graphOk : Bool
  deriving DecidableEq, Repr

/-- Frequency update of Subscriber.callback, lines 294-302 of
topic_communications.py: graph_message.freq starts at the proto default 0; if
last_seen_timestamp is 0 it is set to 0; otherwise it is set to
1/(curr - last) unless the difference is 0; last_seen_timestamp is then
assigned curr unconditionally, and finally a negative freq is clamped to 0.
Returns the published freq and the new last_seen_timestamp. -/
def freqUpdate (last curr : ℚ) : ℚ × ℚ :=
  let f0 : ℚ := if last = 0 then 0
    else if curr - last ≠ 0 then 1 / (curr - last) else 0
  let f : ℚ := if f0 < 0 then 0 else f0
  (f, curr)

namespace Subscriber

/-- Subscriber.callback (topic_communications.py lines 271-308).  If the
declared type is None or str, the user callback is invoked directly on the
raw body.  Otherwise the body is coerced to bytes and decoded with the
FromString of the declared type (modelled by the fromString argument; none models
a raised decode exception, turned into ValueError by the except clause), the
delivery tag is acknowledged, the graph record is built with the frequency
update, published to the graph exchange (raise RuntimeWarning when the
broker reports failure), and finally the user callback is invoked with the
decoded message and the callback args.  Returns the call outcome, the event
trace, and the new last_seen_timestamp. -/
def callback (s : SubState) (fromString : String → Option DecMsg)
    (tag : Nat) (body : SBody) :
    Except PyError Unit × List SEvent × ℚ :=
  match s.declType with
  | none => (.ok (), [.cbRaw body], s.lastTimestamp)
  | some t =>
    if t = "str" then
      (.ok (), [.cbRaw body], s.lastTimestamp)
    else
      match fromString body.coerce with
      | none => (.error .valueError, [], s.lastTimestamp)
      | some msg =>
        let ev1 := SEvent.ack tag
        let curr : ℚ := (msg.stampSeconds : ℚ) + (msg.stampNanos : ℚ) / 10 ^ 9
        let fr := freqUpdate s.lastTimestamp curr
        let grec : GraphRecord :=
          { sender := msg.sender, receiver := s.nodeName, msgType := t, freq := fr.1 }
        let ev2 := SEvent.graph grec
        if s.graphOk then
          (.ok (), [ev1, ev2, .cbMsg msg s.cbArgs], fr.2)
        else
          (.error .runtimeWarning, [ev1, ev2], fr.2)

end Subscriber

/-- State of the pika channel attribute of an endpoint: absent models
a channel attribute that is still None, opened an open channel, closed a
channel on which close() has already run.  pika semantics used below:
is_open is true exactly in the opened state, and calling close() on a
channel that is not open raises ChannelWrongStateError. -/
inductive ChanState
  | absent
  | opened
  | closed
  deriving DecidableEq, Repr

namespace Channel

/-- Channel.close (topic_communications.py lines 79-85): return when the
channel attribute is None; call channel.close() only when is_open. -/
def close : ChanState → Except PyError ChanState
  | .absent => .ok .absent
  | .opened => .ok .closed
  | .closed => .ok .closed

end Channel

namespace Queue

/-- Queue.close (work_queue_communications.py lines 63-68) as written: the
guard reads if (self._channel!=None): return, so when a channel exists the
method returns early without closing anything; when the channel attribute is
None the code falls through to self._channel.is_open, an attribute access on
None, which raises AttributeError. -/
def close : ChanState → Except PyError ChanState
  | .absent => .error .attributeError
  | st => .ok st

end Queue

namespace Broadcaster

/-- Broadcaster.close (broadcaster.py lines 12-15): calls channel.close()
whenever the channel attribute is not None, with no is_open guard, so a
second call on an already-closed channel raises ChannelWrongStateError
inside pika. -/
def close : ChanState → Except PyError ChanState
  | .absent => .ok .absent
  | .opened => .ok .closed
  | .closed => .error .channelWrongStateError

end Broadcaster

/-- State of a Broadcaster: exchange name (called topic_name in the
constructor) and the name of the declared payload type; type_object defaults
to str, modelled by the name "str". -/
structure BState where
  topic : String
  objectType : String
  deriving DecidableEq, Repr

/-- Result of message.SerializeToString() followed by .decode() in
Broadcaster.publish, line 57 of broadcaster.py: a str has no
SerializeToString attribute, and an object without the encode contract fails
the same way, so both are none; an encodable protobuf object yields its wire
form (byte sequences are modelled as strings, so decode() is the
identity). -/
def PMsg.serializeDecode : PMsg → Option String
  | .pyStr _ => none
  | .pyObj _ _ true _ w => some w
  | .pyObj _ _ false _ _ => none

/-- Broker-visible basic_publish call made by Broadcaster.publish, carrying
the exchange name, routing key and string body. -/
structure BEvent where
  exchange : String
  routingKey : String
  body : String
  deriving DecidableEq, Repr

namespace Broadcaster

/-- Broadcaster.publish (broadcaster.py lines 53-60): exact runtime type
comparison type(message) != self.type raising ValueError on mismatch, then
message.SerializeToString().decode() with no surrounding try (a raised
AttributeError propagates), then basic_publish to the fan-out exchange with
an empty routing key.  An unsuccessful broker outcome is only printed, never
raised, so it is not modelled. -/
def publish (b : BState) (message : PMsg) : Except PyError Unit × List BEvent :=
  if message.typeName ≠ b.objectType then
    (.error .valueError, [])
  else
    match message.serializeDecode with
    | none => (.error .attributeError, [])
    | some w => (.ok (), [{ exchange := b.topic, routingKey := "", body := w }])

end Broadcaster

/-- State of a Tasker: queue name, name of the declared object type, the
persistant flag, and the outcome of the basic_publish call (false models a
raised pika exception caught by the bare except clause). -/
structure TaskerState where
  queueName : String
  objectType : String
  persistant : Bool
  publishOk : Bool
  deriving DecidableEq, Repr

/-- Broker-visible basic_publish call made by Tasker.publish: default
exchange, routing key = queue name, the body value handed over, and the
delivery_mode carried by the BasicProperties argument (some 2 when the
persistant flag is set, none when properties is None). -/
structure QPublish where
  exchange : String
  routingKey : String
  body : PMsg
  deliveryMode : Option Nat
  deriving DecidableEq, Repr

namespace Tasker

/-- Python attribute lookup of the name type on a Tasker instance, as
performed by self.type in work_queue_communications.py line 94: neither
Tasker nor its bases Queue and object define an attribute or property named
type (Tasker defines object_type and is_persistant), so the lookup raises
AttributeError for every instance. -/
def typeAttr : TaskerState → Option String := fun _ => none

/-- Tasker.publish (work_queue_communications.py lines 92-107) as written:
the first conditional reads self.type, whose lookup fails.  The remaining
statements (body = message verbatim in the str case, SerializeToString with
except ValueError otherwise, BasicProperties(delivery_mode=2) when
persistant, basic_publish to the default exchange with routing key = queue
name, except raising ChannelError) are modelled after the lookup and are
unreachable.  Note also that the whole module fails to import: Python
raises TabError at line 137 of the file. -/
def publish (t : TaskerState) (message : PMsg) :
    Except PyError Unit × List QPublish :=
  match typeAttr t with
  | none => (.error .attributeError, [])
  | some ty =>
    let body? : Except PyError PMsg :=
      if ty = "str" then .ok message
      else
        match message with
        | .pyObj _ _ true _ w => .ok (.pyStr w)
        | _ => .error .valueError
    match body? with
    | .error e => (.error e, [])
    | .ok b =>
      let props : Option Nat := if t.persistant then some 2 else none
      if t.publishOk then
        (.ok (), [{ exchange := "", routingKey := t.queueName, body := b,
                    deliveryMode := props }])
      else
        (.error .channelError, [])

end Tasker

/-- Fields a constructed Worker would carry (work_queue_communications.py
lines 109-127). -/
structure WorkerState where
  queueName : String
  objectType : String
  prefetchQos : Nat
  durable : Bool
  deriving DecidableEq, Repr

namespace Worker

/-- Worker.create (work_queue_communications.py lines 128-133) as written:
its first statement is Channel.create(self), but this module neither defines
nor imports any name Channel, so Python raises NameError there; the
exchange_declare that follows is unreachable.  The class contains no
basic_qos call, no basic_consume, no start_consuming and no basic_ack
anywhere. -/
def create : Except PyError Unit := .error .nameError

/-- Worker construction: Worker.__init__ stores its fields and delegates to
Queue.__init__, whose last statement self.create() dispatches to the
overriding Worker.create, which raises NameError, so no Worker instance is
ever produced.  (Independently, importing the module already fails with
TabError at line 137.) -/
def init (queueName objectType : String) (prefetchQos : Nat) (durable : Bool) :
    Except PyError WorkerState :=
  match create with
  | .error e => .error e
  | .ok _ =>
    .ok { queueName := queueName, objectType := objectType,
          prefetchQos := prefetchQos, durable := durable }

end Worker

/-- C1: frequency computation of the Topic Subscriber for non-string
deliveries.  A fresh subscriber (last_seen_timestamp = 0) emits frequency 0;
a duplicate timestamp leaves the frequency at 0; a computed frequency that
would be negative (earlier timestamp) is clamped to 0; otherwise the
frequency is 1/(curr - last), so two deliveries 0.5 s apart yield 2; and
last_seen_timestamp is set to the current timestamp unconditionally.  The
final conjunct ties the update to Subscriber.callback: the graph event it
emits carries exactly this frequency, and the returned last_seen_timestamp
is the current timestamp. -/
theorem subscriber_frequency_contract :
    (∀ curr : ℚ, (freqUpdate 0 curr).1 = 0) ∧
    (∀ last : ℚ, last ≠ 0 → (freqUpdate last last).1 = 0) ∧
    (∀ last curr : ℚ, last ≠ 0 → curr < last → (freqUpdate last curr).1 = 0) ∧
    (∀ last curr : ℚ, last ≠ 0 → last < curr →
      (freqUpdate last curr).1 = 1 / (curr - last)) ∧
    (∀ last : ℚ, last ≠ 0 → (freqUpdate last (last + 1 / 2)).1 = 2) ∧
    (∀ last curr : ℚ, (freqUpdate last curr).2 = curr) ∧
    (∀ (s : SubState) (fromString : String → Option DecMsg) (tag : ℕ)
        (body : SBody) (t : String) (msg : DecMsg),
      s.declType = some t → t ≠ "str" → fromString body.coerce = some msg →
      SEvent.graph ⟨msg.sender, s.nodeName, t,
          (freqUpdate s.lastTimestamp
            ((msg.stampSeconds : ℚ) + (msg.stampNanos : ℚ) / 10 ^ 9)).1⟩ ∈
        (Subscriber.callback s fromString tag body).2.1 ∧
      (Subscriber.callback s fromString tag body).2.2 =
        (msg.stampSeconds : ℚ) + (msg.stampNanos : ℚ) / 10 ^ 9) := by
  refine ⟨?_, ?_, ?_, ?_, ?_, ?_, ?_⟩
  · intro curr
    simp [freqUpdate]
  · intro last h
    simp [freqUpdate, h]
  · intro last curr h hlt
    have hne : curr - last ≠ 0 := sub_ne_zero.mpr (ne_of_lt hlt)
    have hneg : 1 / (curr - last) < 0 :=
      div_neg_of_pos_of_neg one_pos (sub_neg.mpr hlt)
    simp [freqUpdate, h, hne, hneg, hlt]
  · intro last curr h hlt
    have hne : curr - last ≠ 0 := sub_ne_zero.mpr (ne_of_gt hlt)
    have hpos : 0 < 1 / (curr - last) :=
      div_pos one_pos (sub_pos.mpr hlt)
    have hnlt : ¬ curr < last := asymm hlt
    simp [freqUpdate, h, hne, not_lt.mpr (le_of_lt hpos), hnlt]
  · intro last h
    have hs : last + 1 / 2 - last = (1 / 2 : ℚ) := by ring
    simp [freqUpdate, h, hs]
  · intro last curr
    rfl
  · intro s fromString tag body t msg ht hts hd
    cases hg : s.graphOk <;>
      simp [Subscriber.callback, ht, hts, hd, hg, freqUpdate]

/-- Witness for C1 at concrete inputs. -/
theorem subscriber_frequency_contract_witness :
    (freqUpdate 0 5).1 = 0 ∧ (freqUpdate 3 3).1 = 0 ∧ (freqUpdate 3 2).1 = 0 ∧
    (freqUpdate 2 4).1 = 1 / (4 - 2) ∧ (freqUpdate 3 (3 + 1 / 2)).1 = 2 ∧
    (freqUpdate 3 7).2 = 7 ∧
    (SEvent.graph ⟨"a", "n", "T",
        (freqUpdate 1
          (((2 : Int) : ℚ) + ((0 : Int) : ℚ) / 10 ^ 9)).1⟩ ∈
      (Subscriber.callback ⟨"n", some "T", 1, [], true⟩
        (fun _ => some ⟨"a", 2, 0⟩) 5 (.ofBytes "x")).2.1 ∧
      (Subscriber.callback ⟨"n", some "T", 1, [], true⟩
        (fun _ => some ⟨"a", 2, 0⟩) 5 (.ofBytes "x")).2.2 =
        ((2 : Int) : ℚ) + ((0 : Int) : ℚ) / 10 ^ 9) :=
  ⟨subscriber_frequency_contract.1 5,
   subscriber_frequency_contract.2.1 3 (by norm_num),
   subscriber_frequency_contract.2.2.1 3 2 (by norm_num) (by norm_num),
   subscriber_frequency_contract.2.2.2.1 2 4 (by norm_num) (by norm_num),
   subscriber_frequency_contract.2.2.2.2.1 3 (by norm_num),
   subscriber_frequency_contract.2.2.2.2.2.1 3 7,
   subscriber_frequency_contract.2.2.2.2.2.2 _ _ 5 _ "T" ⟨"a", 2, 0⟩
     rfl (by decide) rfl⟩

/-- C3: on every successfully decoded non-string delivery with a broker that
accepts the graph publish, Subscriber.callback performs exactly this trace,
in this order: acknowledge the delivery tag, publish exactly one
graph-exchange telemetry event, then invoke the user callback with the
decoded message and the configured callback args. -/
theorem subscriber_delivery_order (s : SubState)
    (fromString : String → Option DecMsg) (tag : ℕ) (body : SBody)
    (t : String) (msg : DecMsg)
    (ht : s.declType = some t) (hts : t ≠ "str")
    (hd : fromString body.coerce = some msg) (hg : s.graphOk = true) :
    Subscriber.callback s fromString tag body =
      (.ok (),
       [SEvent.ack tag,
        SEvent.graph ⟨msg.sender, s.nodeName, t,
          (freqUpdate s.lastTimestamp
            ((msg.stampSeconds : ℚ) + (msg.stampNanos : ℚ) / 10 ^ 9)).1⟩,
        SEvent.cbMsg msg s.cbArgs],
       (freqUpdate s.lastTimestamp
         ((msg.stampSeconds : ℚ) + (msg.stampNanos : ℚ) / 10 ^ 9)).2) := by
  simp [Subscriber.callback, ht, hts, hd, hg]

/-- Witness for C3 at concrete inputs. -/
theorem subscriber_delivery_order_witness :
    Subscriber.callback ⟨"n", some "T", 0, ["arg"], true⟩
        (fun _ => some ⟨"a", 4, 0⟩) 9 (.ofStr "payload") =
      (.ok (),
       [SEvent.ack 9,
        SEvent.graph ⟨"a", "n", "T",
          (freqUpdate 0
            (((4 : Int) : ℚ) + ((0 : Int) : ℚ) / 10 ^ 9)).1⟩,
        SEvent.cbMsg ⟨"a", 4, 0⟩ ["arg"]],
       (freqUpdate 0 (((4 : Int) : ℚ) + ((0 : Int) : ℚ) / 10 ^ 9)).2) :=
  subscriber_delivery_order _ _ 9 _ "T" ⟨"a", 4, 0⟩
    rfl (by decide) rfl rfl

/-- C9: a delivery to a Subscriber whose declared payload type is str goes
straight to the user callback with the raw body: no decode, no
acknowledgment, no graph-exchange publish, and last_seen_timestamp is left
untouched. -/
theorem subscriber_string_sentinel (s : SubState)
    (fromString : String → Option DecMsg) (tag : ℕ) (body : SBody)
    (h : s.declType = some "str") :
    Subscriber.callback s fromString tag body =
      (.ok (), [SEvent.cbRaw body], s.lastTimestamp) := by
  simp [Subscriber.callback, h]

/-- C2 counterexample: a Publisher declared for type TypeA, handed a TypeB
message carrying a header, raises ValueError with no broker-visible event,
but the message object handed back is NOT the one the caller passed in: its
header.sender has been stamped with the node name before the type check, so
the claim that rejection precedes stamping and leaves the message unmodified
fails on this input. -/
theorem publisher_mismatch_mutation_counterexample :
    Publisher.publish ⟨"n0", "top", "TypeA", true, true⟩
        (.pyObj "TypeB" (some ⟨"orig", 0, 0⟩) true "j" "w") =
      (.error .valueError, [], .pyObj "TypeB" (some ⟨"n0", 0, 0⟩) true "j" "w") ∧
    (PMsg.pyObj "TypeB" (some ⟨"n0", 0, 0⟩) true "j" "w") ≠
      (PMsg.pyObj "TypeB" (some ⟨"orig", 0, 0⟩) true "j" "w") := by
  exact ⟨rfl, by decide⟩

/-- C2 as amended: for every message carrying a header whose runtime type
differs from the declared payload type, publish raises ValueError and makes
no broker-visible publish (empty event trace), but only after stamping
header.sender with the node name, so the message object of the caller is
mutated; a message without a header attribute raises AttributeError
instead. -/
theorem publisher_type_mismatch_after_stamp (p : PubState) (t : String)
    (h : Header) (e : Bool) (j w : String) (hne : t ≠ p.declType) :
    Publisher.publish p (.pyObj t (some h) e j w) =
      (.error .valueError, [],
        .pyObj t (some { h with sender := p.nodeName }) e j w) := by
  simp [Publisher.publish, PMsg.stampSender, PMsg.typeName, hne]

/-- Witness for the amended C2 at concrete inputs. -/
theorem publisher_type_mismatch_after_stamp_witness :
    Publisher.publish ⟨"nw", "tw", "TypeA", true, true⟩
        (.pyObj "TypeB" (some ⟨"s0", 1, 2⟩) false "jj" "ww") =
      (.error .valueError, [], .pyObj "TypeB" (some ⟨"nw", 1, 2⟩) false "jj" "ww") :=
  publisher_type_mismatch_after_stamp ⟨"nw", "tw", "TypeA", true, true⟩
    "TypeB" ⟨"s0", 1, 2⟩ false "jj" "ww" (by decide)

/-- C4 counterexample: the claim says the primary operation survives a
side-channel failure.  On a Publisher whose logging publish the broker
rejects, publish raises RuntimeWarning and the trace stops at the logging
attempt: the primary topic-exchange publish never happens.  On a Subscriber
whose graph publish the broker rejects, callback raises RuntimeWarning and
the user callback is never invoked. -/
theorem side_channel_failure_aborts_counterexample :
    Publisher.publish ⟨"n0", "top", "TypeA", false, true⟩
        (.pyObj "TypeA" (some ⟨"", 0, 0⟩) true "j" "w") =
      (.error .runtimeWarning, [PubEvent.toLogs ⟨0, "TypeA", "j"⟩],
        .pyObj "TypeA" (some ⟨"n0", 0, 0⟩) true "j" "w") ∧
    Subscriber.callback ⟨"n", some "T", 0, [], false⟩
        (fun _ => some ⟨"a", 1, 0⟩) 7 (.ofBytes "x") =
      (.error .runtimeWarning,
        [SEvent.ack 7, SEvent.graph ⟨"a", "n", "T", 0⟩],
        ((1 : Int) : ℚ) + ((0 : Int) : ℚ) / 10 ^ 9) := by
  constructor
  · rfl
  · simp [Subscriber.callback, freqUpdate]

/-- C4 as amended: a side-channel publish failure is surfaced by raising
RuntimeWarning, which aborts the primary operation: after a logging-exchange
failure Publisher.publish stops with only the logging attempt in its trace
(no primary topic-exchange publish), and after a graph-exchange failure
Subscriber.callback stops after the ack and graph attempt (the user callback
is not invoked). -/
theorem side_channel_failure_raises_and_aborts :
    (∀ (p : PubState) (t : String) (h : Header) (j w : String),
      p.logOk = false → t = p.declType →
      Publisher.publish p (.pyObj t (some h) true j w) =
        (.error .runtimeWarning, [PubEvent.toLogs ⟨0, t, j⟩],
          .pyObj t (some { h with sender := p.nodeName }) true j w)) ∧
    (∀ (s : SubState) (fromString : String → Option DecMsg) (tag : ℕ)
        (body : SBody) (t : String) (msg : DecMsg),
      s.graphOk = false → s.declType = some t → t ≠ "str" →
      fromString body.coerce = some msg →
      Subscriber.callback s fromString tag body =
        (.error .runtimeWarning,
         [SEvent.ack tag,
          SEvent.graph ⟨msg.sender, s.nodeName, t,
            (freqUpdate s.lastTimestamp
              ((msg.stampSeconds : ℚ) + (msg.stampNanos : ℚ) / 10 ^ 9)).1⟩],
         (freqUpdate s.lastTimestamp
           ((msg.stampSeconds : ℚ) + (msg.stampNanos : ℚ) / 10 ^ 9)).2)) := by
  constructor
  · intro p t h j w hlog hty
    simp [Publisher.publish, PMsg.stampSender, PMsg.typeName, hty, hlog,
      buildRecord]
  · intro s fromString tag body t msg hg ht hts hd
    simp [Subscriber.callback, ht, hts, hd, hg]

/-- Witness for the amended C4 at concrete inputs. -/
theorem side_channel_failure_raises_and_aborts_witness :
    Publisher.publish ⟨"nx", "tx", "Tx", false, true⟩
        (.pyObj "Tx" (some ⟨"s", 0, 0⟩) true "jx" "wx") =
      (.error .runtimeWarning, [PubEvent.toLogs ⟨0, "Tx", "jx"⟩],
        .pyObj "Tx" (some ⟨"nx", 0, 0⟩) true "jx" "wx") ∧
    Subscriber.callback ⟨"nr", some "Ty", 0, [], false⟩
        (fun _ => some ⟨"sx", 2, 0⟩) 3 (.ofBytes "b") =
      (.error .runtimeWarning,
       [SEvent.ack 3,
        SEvent.graph ⟨"sx", "nr", "Ty",
          (freqUpdate 0 (((2 : Int) : ℚ) + ((0 : Int) : ℚ) / 10 ^ 9)).1⟩],
       (freqUpdate 0 (((2 : Int) : ℚ) + ((0 : Int) : ℚ) / 10 ^ 9)).2) :=
  ⟨side_channel_failure_raises_and_aborts.1 ⟨"nx", "tx", "Tx", false, true⟩
    "Tx" ⟨"s", 0, 0⟩ "jx" "wx" rfl rfl,
   side_channel_failure_raises_and_aborts.2 ⟨"nr", some "Ty", 0, [], false⟩
    _ 3 _ "Ty" ⟨"sx", 2, 0⟩ rfl rfl (by decide) rfl⟩

/-- C5: every call to Tasker.publish raises AttributeError before doing
anything, because line 94 reads self.type and no attribute named type exists
on Tasker or its bases; the documented verbatim-string, serialization,
delivery_mode=2 and delivery-error behaviour is unreachable.  (The module
also fails to import at all: TabError at line 137.) -/
theorem tasker_publish_always_attribute_error :
    ∀ (t : TaskerState) (m : PMsg),
      Tasker.publish t m = (.error .attributeError, []) := by
  intro t m
  rfl

/-- C6: no Worker is ever constructed, because Queue.__init__ ends with
self.create() and the overriding Worker.create immediately hits the
undefined name Channel, raising NameError; consequently no prefetch bound is
ever set (the class contains no basic_qos call), no consume loop is entered,
and no acknowledge-after-callback behaviour exists anywhere in the class. -/
theorem worker_construction_name_error :
    ∀ (q o : String) (n : ℕ) (d : Bool),
      Worker.init q o n d = .error .nameError := by
  intro q o n d
  rfl

/-- C7 counterexample: Queue.close on an open channel returns without
closing it (the None guard is inverted), Queue.close when no channel was
ever created raises AttributeError, and Broadcaster.close raises
ChannelWrongStateError when the channel is already closed, so the claim
that every endpoint closes an open channel, is idempotent and never raises
fails. -/
theorem endpoint_close_counterexample :
    Queue.close ChanState.opened = .ok ChanState.opened ∧
    ChanState.opened ≠ ChanState.closed ∧
    Queue.close ChanState.absent = .error PyError.attributeError ∧
    Broadcaster.close ChanState.closed = .error PyError.channelWrongStateError := by
  exact ⟨rfl, by decide, rfl, rfl⟩

/-- C7 as amended: only Channel.close has the claimed behaviour (closes an
open channel, idempotent, never raises).  Queue.close never closes an
existing channel and raises AttributeError when the channel attribute is
still None.  Broadcaster.close closes an open channel and tolerates a
missing one, but raises when called again after the channel is closed. -/
theorem endpoint_close_behavior :
    (∀ st, Channel.close st =
      .ok (if st = ChanState.opened then ChanState.closed else st)) ∧
    (∀ st, (Channel.close st).bind Channel.close = Channel.close st) ∧
    (∀ st, Queue.close st =
      if st = ChanState.absent then .error PyError.attributeError else .ok st) ∧
    (Broadcaster.close ChanState.absent = .ok ChanState.absent) ∧
    (Broadcaster.close ChanState.opened = .ok ChanState.closed) ∧
    (Broadcaster.close ChanState.closed = .error PyError.channelWrongStateError) := by
  refine ⟨fun st => ?_, fun st => ?_, fun st => ?_, rfl, rfl, rfl⟩ <;>
    cases st <;> rfl

/-- C8 counterexample: with the default declared type str, a str message
passes the exact type comparison, yet publish raises AttributeError (str has
no SerializeToString) and sends nothing, so the claim that every message of
the declared type, including the default str, is serialized and published
fails on this input. -/
theorem broadcaster_default_str_counterexample :
    (PMsg.pyStr "hello").typeName = (⟨"bx", "str"⟩ : BState).objectType ∧
    Broadcaster.publish ⟨"bx", "str"⟩ (.pyStr "hello") =
      (.error .attributeError, []) := by
  exact ⟨rfl, rfl⟩

/-- C8 as amended: on a runtime type differing from the declared type,
Broadcaster.publish raises ValueError and sends nothing; on an encodable
structured message of the declared type it publishes exactly one message to
the fan-out exchange with an empty routing key; but on a str message under
the default declared type str it raises AttributeError (str has no
SerializeToString) and sends nothing. -/
theorem broadcaster_publish_contract :
    (∀ (b : BState) (m : PMsg), m.typeName ≠ b.objectType →
      Broadcaster.publish b m = (.error .valueError, [])) ∧
    (∀ (b : BState) (t : String) (h : Option Header) (j w : String),
      t = b.objectType →
      Broadcaster.publish b (.pyObj t h true j w) =
        (.ok (), [⟨b.topic, "", w⟩])) ∧
    (∀ (b : BState) (s : String), b.objectType = "str" →
      Broadcaster.publish b (.pyStr s) = (.error .attributeError, [])) := by
  refine ⟨?_, ?_, ?_⟩
  · intro b m hne
    simp [Broadcaster.publish, hne]
  · intro b t h j w hty
    simp [Broadcaster.publish, PMsg.typeName, hty, PMsg.serializeDecode]
  · intro b s hty
    simp [Broadcaster.publish, PMsg.typeName, hty, PMsg.serializeDecode]

/-- Witness for the amended C8 at concrete inputs. -/
theorem broadcaster_publish_contract_witness :
    Broadcaster.publish ⟨"ex", "TypeA"⟩ (.pyStr "zz") = (.error .valueError, []) ∧
    Broadcaster.publish ⟨"ex", "TypeA"⟩ (.pyObj "TypeA" none true "j" "wire") =
      (.ok (), [⟨"ex", "", "wire"⟩]) ∧
    Broadcaster.publish ⟨"ex", "str"⟩ (.pyStr "hi") = (.error .attributeError, []) :=
  ⟨broadcaster_publish_contract.1 ⟨"ex", "TypeA"⟩ (.pyStr "zz") (by decide),
   broadcaster_publish_contract.2.1 ⟨"ex", "TypeA"⟩ "TypeA" none "j" "wire" rfl,
   broadcaster_publish_contract.2.2 ⟨"ex", "str"⟩ "hi" rfl⟩

/-- C10: Publisher.publish reaches the statement stamping
message.header.sender before the isinstance check and before the log-record
fields are assigned, so every payload without a header attribute, a plain
str in particular, raises AttributeError, makes no broker-visible publish
(in particular the name = "str" logging record is never sent), and is handed
back unmodified; this holds for every Publisher, including one declared with
payload type str. -/
theorem publisher_stamps_before_type_check :
    (∀ (p : PubState) (s : String),
      Publisher.publish p (.pyStr s) = (.error .attributeError, [], .pyStr s)) ∧
    (∀ (p : PubState) (t : String) (e : Bool) (j w : String),
      Publisher.publish p (.pyObj t none e j w) =
        (.error .attributeError, [], .pyObj t none e j w)) := by
  constructor <;> intros <;> rfl

/-- Witness for C9 at concrete inputs. -/
theorem subscriber_string_sentinel_witness :
    Subscriber.callback ⟨"n", some "str", 3, [], true⟩
        (fun _ => none) 2 (.ofStr "raw") =
      (.ok (), [SEvent.cbRaw (.ofStr "raw")], 3) :=
  subscriber_string_sentinel _ _ 2 _ rfl

end AsvMq
